import Mathlib

/-!
Shallow embedding of the `POST /api/ocr` handler of `src/server.js`
(fertility-backend): an Azure Document Intelligence submit-then-poll
client.  The handler is modelled as a pure function of

  * the startup configuration (the two `AZURE_DI_*` environment variables),
  * the multipart upload (`req.file`, its `buffer` and `mimetype`),
  * the provider response to the submission `fetch` (or a thrown transport
    error), and
  * the stream of provider responses to status queries, one per poll
    iteration (or a thrown transport / JSON-decoding error).

Besides the JSON outcome the embedding records an effect trace: whether the
submission request was sent, which `Content-Type` header it carried, and how
many status queries were issued.
-/

namespace FertilityBackend

/-- JavaScript truthiness of a possibly-absent string value: `undefined`,
`null` and the empty string are falsy, every other string is truthy. -/
def jsTruthy : Option String → Bool
  | none => false
  | some s => s ≠ ""

/-- The `analyzeResult` object of a poll response body (`data.analyzeResult`),
with its optional `content` field. -/
structure AnalyzeResult where
  content : Option String
deriving Repr, DecidableEq

/-- The JSON body of one status-query response (`data` in the poll loop):
an optional `status` string and an optional `analyzeResult`. -/
structure PollData where
  status : Option String
  analyzeResult : Option AnalyzeResult
deriving Repr, DecidableEq

/-- Outcome of one poll iteration's `fetch` + `.json()`: either a thrown
error (transport failure or undecodable body) or a decoded JSON body. -/
inductive PollResp where
  | err (e : String)
  | ok (data : PollData)
deriving Repr, DecidableEq

/-- The provider response to the submission `fetch`: HTTP status code, the
`operation-location` header (`headers.get` returns `null` when absent), and
the response body text (read by `submitResp.text()` on the non-202 path). -/
structure SubmitResp where
  status : Nat
  operationLocation : Option String
  bodyText : String
deriving Repr, DecidableEq

/-- Outcome of the submission `fetch`: a thrown transport error or a
provider response. -/
inductive SubmitResult where
  | err (e : String)
  | ok (r : SubmitResp)
deriving Repr, DecidableEq

/-- The multipart upload produced by multer (`req.file`): its in-memory
`buffer` (a byte sequence; the field may in principle be absent) and its
`mimetype` label. -/
structure UploadedFile where
  buffer : Option (List Nat)
  mimetype : Option String
deriving Repr, DecidableEq

/-- Startup configuration: `AZURE_DI_ENDPOINT` and `AZURE_DI_KEY`
(environment variables, absent or possibly empty strings). -/
structure Config where
  azureEndpoint : Option String
  azureKey : Option String
deriving Repr, DecidableEq

/-- The JSON response returned to the caller of `POST /api/ocr`, one
constructor per `return res...` site of the handler. -/
inductive OcrOutcome where
  /-- 500 `Missing Azure DI env vars` (line 46). -/
  | envError
  /-- 400 `No file uploaded` (line 49). -/
  | noFile
  /-- 500 `Azure DI submit failed` with `status` and `details` (lines 69-73). -/
  | submitRejected (status : Nat) (details : String)
  /-- 500 `Missing Operation-Location` (line 78). -/
  | missingOpLocation
  /-- 500 `Azure DI failed` with `details: data` (line 97). -/
  | providerFailed (details : PollData)
  /-- 504 `Azure DI timeout` (line 102). -/
  | timeout
  /-- 200 `{ text }` (line 106). -/
  | success (text : String)
  /-- 500 `Azure DI exception` with `details: String(e)` (lines 108-110). -/
  | exception (e : String)
deriving Repr, DecidableEq

/-- The HTTP status code the handler attaches to each outcome. -/
def httpStatus : OcrOutcome → Nat
  | .envError => 500
  | .noFile => 400
  | .submitRejected _ _ => 500
  | .missingOpLocation => 500
  | .providerFailed _ => 500
  | .timeout => 504
  | .success _ => 200
  | .exception _ => 500

/-- The poll loop bound: `for (let i = 0; i < 120; i++)` (line 83). -/
def maxAttempts : Nat := 120

/-- Result of the poll loop (lines 82-99) together with the loop exits that
follow it: terminal `succeeded` data, terminal `failed` data, exhaustion of
the attempt budget, or a thrown error propagating to the `catch`. -/
inductive PollOutcome where
  | succeeded (d : PollData)
  | failed (d : PollData)
  | timedOut
  | exception (e : String)
deriving Repr, DecidableEq

/-- The poll loop of lines 83-99: starting at iteration index `i` with `r`
attempts remaining, fetch `polls i`, decode, break on `succeeded`, return on
`failed`, otherwise continue.  Returns the loop outcome paired with the
number of status queries issued. -/
def pollLoop (polls : Nat → PollResp) : Nat → Nat → PollOutcome × Nat
  | _, 0 => (.timedOut, 0)
  | i, r + 1 =>
    match polls i with
    | .err e => (.exception e, 1)
    | .ok d =>
      if d.status = some "succeeded" then (.succeeded d, 1)
      else if d.status = some "failed" then (.failed d, 1)
      else
        let p := pollLoop polls (i + 1) r
        (p.1, p.2 + 1)

/-- Result extraction of line 105: `finalData?.analyzeResult?.content || ''`
(on the success path `finalData` is the terminal response body). -/
def extractText (d : PollData) : String :=
  match d.analyzeResult with
  | none => ""
  | some ar =>
    match ar.content with
    | none => ""
    | some c => if c = "" then "" else c

/-- The submission response checks of lines 67-79: a non-202 status returns
the rejection error with status and body; a 202 without a truthy
`operation-location` header returns the malformed-response error; otherwise
the operation reference is extracted from the header. -/
def submitStep (r : SubmitResp) : Except OcrOutcome String :=
  if r.status ≠ 202 then
    .error (.submitRejected r.status r.bodyText)
  else if ¬ jsTruthy r.operationLocation then
    .error .missingOpLocation
  else
    .ok (r.operationLocation.getD "")

/-- The `Content-Type` header value of the submission request (line 62):
`req.file.mimetype || 'application/pdf'`. -/
def contentTypeOf (f : UploadedFile) : String :=
  match f.mimetype with
  | none => "application/pdf"
  | some m => if m = "" then "application/pdf" else m

/-- Effect trace of one handler invocation: the JSON outcome, whether the
submission `fetch` was issued, the `Content-Type` header it carried, and the
number of status-query `fetch`es issued. -/
structure OcrTrace where
  outcome : OcrOutcome
  submitSent : Bool
  sentContentType : Option String
  pollQueries : Nat
deriving Repr, DecidableEq

/-- The `POST /api/ocr` handler (lines 43-112 of `src/server.js`):
environment check, file check, submission with
`Content-Type: req.file.mimetype || 'application/pdf'`, response checks,
poll loop, timeout check, result extraction; thrown errors are caught and
reported as the 500 exception outcome. -/
def handleOcr (cfg : Config) (file : Option UploadedFile)
    (submitR : SubmitResult) (polls : Nat → PollResp) : OcrTrace :=
  if !(jsTruthy cfg.azureEndpoint) || !(jsTruthy cfg.azureKey) then
    ⟨.envError, false, none, 0⟩
  else
    match file with
    | none => ⟨.noFile, false, none, 0⟩
    | some f =>
      match f.buffer with
      | none => ⟨.noFile, false, none, 0⟩
      | some _buf =>
        let ct : String := contentTypeOf f
        match submitR with
        | .err e => ⟨.exception e, true, some ct, 0⟩
        | .ok r =>
          match submitStep r with
          | .error o => ⟨o, true, some ct, 0⟩
          | .ok _opLocation =>
            match pollLoop polls 0 maxAttempts with
            | (.succeeded d, n) => ⟨.success (extractText d), true, some ct, n⟩
            | (.failed d, n) => ⟨.providerFailed d, true, some ct, n⟩
            | (.timedOut, n) => ⟨.timeout, true, some ct, n⟩
            | (.exception e, n) => ⟨.exception e, true, some ct, n⟩

/-- A poll response that neither terminates the loop nor throws: a decoded
body whose `status` is neither `succeeded` nor `failed` (the loop treats it
as still running). -/
def nonTerminalOk : PollResp → Prop
  | .err _ => False
  | .ok d => d.status ≠ some "succeeded" ∧ d.status ≠ some "failed"

instance instDecidableNonTerminalOk (p : PollResp) : Decidable (nonTerminalOk p) :=
  match p with
  | .err _ => isFalse (fun h => h)
  | .ok _ => inferInstanceAs (Decidable (_ ∧ _))

/-- How the handler maps the poll-loop result to the caller-visible outcome
(lines 92-106 together with the `catch` of lines 107-111). -/
def pollOutcomeToOcr : PollOutcome → OcrOutcome
  | .succeeded d => .success (extractText d)
  | .failed d => .providerFailed d
  | .timedOut => .timeout
  | .exception e => .exception e

/-- Concrete startup configuration used in the concrete evaluations. -/
def cfgW : Config := ⟨some "https://example.cognitiveservices.azure.com", some "secret-key"⟩

/-- Concrete uploaded file used in the concrete evaluations. -/
def fileW : UploadedFile := ⟨some [37, 80, 68, 70], some "application/pdf"⟩

/-- Concrete accepted submission response used in the concrete evaluations. -/
def submitW : SubmitResp := ⟨202, some "https://example.cognitiveservices.azure.com/op/1", ""⟩

/-- Two `running` responses, then `succeeded` with content `Page 1: hello`. -/
def pollsRunThenSucceed : Nat → PollResp := fun j =>
  if j < 2 then .ok ⟨some "running", none⟩
  else .ok ⟨some "succeeded", some ⟨some "Page 1: hello"⟩⟩

/-- Every status query answers `running`. -/
def pollsAlwaysRunning : Nat → PollResp := fun _ => .ok ⟨some "running", none⟩

/-- One `running` response, then `failed`. -/
def pollsRunThenFail : Nat → PollResp := fun j =>
  if j < 1 then .ok ⟨some "running", none⟩ else .ok ⟨some "failed", some ⟨none⟩⟩

/-- One unrecognized-status response, then a thrown transport error. -/
def pollsRunThenErr : Nat → PollResp := fun j =>
  if j < 1 then .ok ⟨some "mystery", none⟩ else .err "fetch failed"

/-- `succeeded` at once, but with no `analyzeResult` field. -/
def pollsSucceedNoResult : Nat → PollResp := fun _ => .ok ⟨some "succeeded", none⟩

lemma pollLoop_of_nonTerminal (polls : Nat → PollResp) (i r : Nat) (d : PollData)
    (hd : polls i = .ok d) (h1 : d.status ≠ some "succeeded")
    (h2 : d.status ≠ some "failed") :
    pollLoop polls i (r + 1) =
      ((pollLoop polls (i + 1) r).1, (pollLoop polls (i + 1) r).2 + 1) := by
  simp [pollLoop, hd, h1, h2]

lemma pollLoop_first_succeeded (polls : Nat → PollResp) :
    ∀ (k i r : Nat), k < r →
    (∀ j, j < k → nonTerminalOk (polls (i + j))) →
    ∀ d, polls (i + k) = .ok d → d.status = some "succeeded" →
    pollLoop polls i r = (.succeeded d, k + 1) := by
  intro k
  induction k with
  | zero =>
    intro i r hr _ d hd hs
    obtain ⟨r', rfl⟩ : ∃ r', r = r' + 1 := ⟨r - 1, by omega⟩
    simp only [Nat.add_zero] at hd
    simp [pollLoop, hd, hs]
  | succ k ih =>
    intro i r hr hpre d hd hs
    obtain ⟨r', rfl⟩ : ∃ r', r = r' + 1 := ⟨r - 1, by omega⟩
    have h0 := hpre 0 (Nat.succ_pos k)
    rw [Nat.add_zero] at h0
    cases hp : polls i with
    | err e => rw [hp] at h0; exact absurd h0 (by simp [nonTerminalOk])
    | ok d0 =>
      rw [hp] at h0
      obtain ⟨h1, h2⟩ : d0.status ≠ some "succeeded" ∧ d0.status ≠ some "failed" := h0
      rw [pollLoop_of_nonTerminal polls i r' d0 hp h1 h2]
      have hpre' : ∀ j, j < k → nonTerminalOk (polls (i + 1 + j)) := by
        intro j hj
        have := hpre (j + 1) (by omega)
        rwa [show i + (j + 1) = i + 1 + j by omega] at this
      have hd' : polls (i + 1 + k) = .ok d := by
        rwa [show i + 1 + k = i + (k + 1) by omega]
      rw [ih (i + 1) r' (by omega) hpre' d hd' hs]

lemma pollLoop_first_failed (polls : Nat → PollResp) :
    ∀ (k i r : Nat), k < r →
    (∀ j, j < k → nonTerminalOk (polls (i + j))) →
    ∀ d, polls (i + k) = .ok d → d.status = some "failed" →
    pollLoop polls i r = (.failed d, k + 1) := by
  intro k
  induction k with
  | zero =>
    intro i r hr _ d hd hs
    obtain ⟨r', rfl⟩ : ∃ r', r = r' + 1 := ⟨r - 1, by omega⟩
    simp only [Nat.add_zero] at hd
    have hne : d.status ≠ some "succeeded" := by simp [hs]
    simp [pollLoop, hd, hs, hne]
  | succ k ih =>
    intro i r hr hpre d hd hs
    obtain ⟨r', rfl⟩ : ∃ r', r = r' + 1 := ⟨r - 1, by omega⟩
    have h0 := hpre 0 (Nat.succ_pos k)
    rw [Nat.add_zero] at h0
    cases hp : polls i with
    | err e => rw [hp] at h0; exact absurd h0 (by simp [nonTerminalOk])
    | ok d0 =>
      rw [hp] at h0
      obtain ⟨h1, h2⟩ : d0.status ≠ some "succeeded" ∧ d0.status ≠ some "failed" := h0
      rw [pollLoop_of_nonTerminal polls i r' d0 hp h1 h2]
      have hpre' : ∀ j, j < k → nonTerminalOk (polls (i + 1 + j)) := by
        intro j hj
        have := hpre (j + 1) (by omega)
        rwa [show i + (j + 1) = i + 1 + j by omega] at this
      have hd' : polls (i + 1 + k) = .ok d := by
        rwa [show i + 1 + k = i + (k + 1) by omega]
      rw [ih (i + 1) r' (by omega) hpre' d hd' hs]

lemma pollLoop_first_err (polls : Nat → PollResp) :
    ∀ (k i r : Nat), k < r →
    (∀ j, j < k → nonTerminalOk (polls (i + j))) →
    ∀ e, polls (i + k) = .err e →
    pollLoop polls i r = (.exception e, k + 1) := by
  intro k
  induction k with
  | zero =>
    intro i r hr _ e he
    obtain ⟨r', rfl⟩ : ∃ r', r = r' + 1 := ⟨r - 1, by omega⟩
    simp only [Nat.add_zero] at he
    simp [pollLoop, he]
  | succ k ih =>
    intro i r hr hpre e he
    obtain ⟨r', rfl⟩ : ∃ r', r = r' + 1 := ⟨r - 1, by omega⟩
    have h0 := hpre 0 (Nat.succ_pos k)
    rw [Nat.add_zero] at h0
    cases hp : polls i with
    | err e0 => rw [hp] at h0; exact absurd h0 (by simp [nonTerminalOk])
    | ok d0 =>
      rw [hp] at h0
      obtain ⟨h1, h2⟩ : d0.status ≠ some "succeeded" ∧ d0.status ≠ some "failed" := h0
      rw [pollLoop_of_nonTerminal polls i r' d0 hp h1 h2]
      have hpre' : ∀ j, j < k → nonTerminalOk (polls (i + 1 + j)) := by
        intro j hj
        have := hpre (j + 1) (by omega)
        rwa [show i + (j + 1) = i + 1 + j by omega] at this
      have he' : polls (i + 1 + k) = .err e := by
        rwa [show i + 1 + k = i + (k + 1) by omega]
      rw [ih (i + 1) r' (by omega) hpre' e he']

lemma pollLoop_timeout (polls : Nat → PollResp) :
    ∀ (r i : Nat), (∀ j, j < r → nonTerminalOk (polls (i + j))) →
    pollLoop polls i r = (.timedOut, r) := by
  intro r
  induction r with
  | zero => intro i _; simp [pollLoop]
  | succ r ih =>
    intro i hpre
    have h0 := hpre 0 (Nat.succ_pos r)
    rw [Nat.add_zero] at h0
    cases hp : polls i with
    | err e => rw [hp] at h0; exact absurd h0 (by simp [nonTerminalOk])
    | ok d0 =>
      rw [hp] at h0
      obtain ⟨h1, h2⟩ : d0.status ≠ some "succeeded" ∧ d0.status ≠ some "failed" := h0
      rw [pollLoop_of_nonTerminal polls i r d0 hp h1 h2]
      have hpre' : ∀ j, j < r → nonTerminalOk (polls (i + 1 + j)) := by
        intro j hj
        have := hpre (j + 1) (by omega)
        rwa [show i + (j + 1) = i + 1 + j by omega] at this
      rw [ih (i + 1) hpre']

lemma pollLoop_count_le (polls : Nat → PollResp) :
    ∀ (r i : Nat), (pollLoop polls i r).2 ≤ r := by
  intro r
  induction r with
  | zero => intro i; simp [pollLoop]
  | succ r ih =>
    intro i
    cases hp : polls i with
    | err e => simp [pollLoop, hp]
    | ok d =>
      by_cases h1 : d.status = some "succeeded"
      · simp [pollLoop, hp, h1]
      · by_cases h2 : d.status = some "failed"
        · simp [pollLoop, hp, h1, h2]
        · rw [pollLoop_of_nonTerminal polls i r d hp h1 h2]
          exact Nat.succ_le_succ (ih (i + 1))

lemma pollLoop_count_ge (polls : Nat → PollResp) :
    ∀ (m i r : Nat), m < r →
    (∀ j, j < m → nonTerminalOk (polls (i + j))) →
    m + 1 ≤ (pollLoop polls i r).2 := by
  intro m
  induction m with
  | zero =>
    intro i r hr _
    obtain ⟨r', rfl⟩ : ∃ r', r = r' + 1 := ⟨r - 1, by omega⟩
    cases hp : polls i with
    | err e => simp [pollLoop, hp]
    | ok d =>
      by_cases h1 : d.status = some "succeeded"
      · simp [pollLoop, hp, h1]
      · by_cases h2 : d.status = some "failed"
        · simp [pollLoop, hp, h1, h2]
        · rw [pollLoop_of_nonTerminal polls i r' d hp h1 h2]; omega
  | succ m ih =>
    intro i r hr hpre
    obtain ⟨r', rfl⟩ : ∃ r', r = r' + 1 := ⟨r - 1, by omega⟩
    have h0 := hpre 0 (Nat.succ_pos m)
    rw [Nat.add_zero] at h0
    cases hp : polls i with
    | err e => rw [hp] at h0; exact absurd h0 (by simp [nonTerminalOk])
    | ok d0 =>
      rw [hp] at h0
      obtain ⟨h1, h2⟩ : d0.status ≠ some "succeeded" ∧ d0.status ≠ some "failed" := h0
      rw [pollLoop_of_nonTerminal polls i r' d0 hp h1 h2]
      have hpre' : ∀ j, j < m → nonTerminalOk (polls (i + 1 + j)) := by
        intro j hj
        have := hpre (j + 1) (by omega)
        rwa [show i + (j + 1) = i + 1 + j by omega] at this
      have := ih (i + 1) r' (by omega) hpre'
      omega

lemma pollLoop_prefix_nonTerminal (polls : Nat → PollResp) :
    ∀ (r i j : Nat), j + 1 < (pollLoop polls i r).2 →
    nonTerminalOk (polls (i + j)) := by
  intro r
  induction r with
  | zero => intro i j hj; simp [pollLoop] at hj
  | succ r ih =>
    intro i j hj
    cases hp : polls i with
    | err e => rw [show pollLoop polls i (r+1) = (.exception e, 1) by simp [pollLoop, hp]] at hj; omega
    | ok d =>
      by_cases h1 : d.status = some "succeeded"
      · rw [show pollLoop polls i (r+1) = (.succeeded d, 1) by simp [pollLoop, hp, h1]] at hj
        omega
      · by_cases h2 : d.status = some "failed"
        · rw [show pollLoop polls i (r+1) = (.failed d, 1) by simp [pollLoop, hp, h1, h2]] at hj
          omega
        · cases j with
          | zero => rw [Nat.add_zero, hp]; exact ⟨h1, h2⟩
          | succ j =>
            rw [pollLoop_of_nonTerminal polls i r d hp h1 h2] at hj
            have := ih (i + 1) j (by omega)
            rwa [show i + 1 + j = i + (j + 1) by omega] at this

lemma pollLoop_timedOut_count (polls : Nat → PollResp) :
    ∀ (r i : Nat), (pollLoop polls i r).1 = .timedOut →
    (pollLoop polls i r).2 = r := by
  intro r
  induction r with
  | zero => intro i _; simp [pollLoop]
  | succ r ih =>
    intro i h
    cases hp : polls i with
    | err e => rw [show pollLoop polls i (r+1) = (.exception e, 1) by simp [pollLoop, hp]] at h ⊢; simp at h
    | ok d =>
      by_cases h1 : d.status = some "succeeded"
      · rw [show pollLoop polls i (r+1) = (.succeeded d, 1) by simp [pollLoop, hp, h1]] at h ⊢
        simp at h
      · by_cases h2 : d.status = some "failed"
        · rw [show pollLoop polls i (r+1) = (.failed d, 1) by simp [pollLoop, hp, h1, h2]] at h ⊢
          simp at h
        · rw [pollLoop_of_nonTerminal polls i r d hp h1 h2] at h ⊢
          simp only at h ⊢
          rw [ih (i + 1) h]

lemma handleOcr_pollPath (cfg : Config) (f : UploadedFile) (buf : List Nat)
    (r : SubmitResp) (polls : Nat → PollResp)
    (hce : jsTruthy cfg.azureEndpoint = true) (hck : jsTruthy cfg.azureKey = true)
    (hbuf : f.buffer = some buf) (hst : r.status = 202)
    (hloc : jsTruthy r.operationLocation = true) :
    handleOcr cfg (some f) (.ok r) polls =
      ⟨pollOutcomeToOcr (pollLoop polls 0 maxAttempts).1, true,
        some (contentTypeOf f), (pollLoop polls 0 maxAttempts).2⟩ := by
  rcases hp : pollLoop polls 0 maxAttempts with ⟨o, n⟩
  cases o <;>
    simp [handleOcr, hce, hck, hbuf, submitStep, hst, hloc, hp, pollOutcomeToOcr]

lemma handleOcr_submitEffects (cfg : Config) (f : UploadedFile) (buf : List Nat)
    (submitR : SubmitResult) (polls : Nat → PollResp)
    (hce : jsTruthy cfg.azureEndpoint = true) (hck : jsTruthy cfg.azureKey = true)
    (hbuf : f.buffer = some buf) :
    (handleOcr cfg (some f) submitR polls).sentContentType = some (contentTypeOf f) ∧
    (handleOcr cfg (some f) submitR polls).submitSent = true := by
  cases submitR with
  | err e => simp [handleOcr, hce, hck, hbuf]
  | ok r =>
    cases hs : submitStep r with
    | error o => simp [handleOcr, hce, hck, hbuf, hs]
    | ok s =>
      rcases hp : pollLoop polls 0 maxAttempts with ⟨o, n⟩
      cases o <;> simp [handleOcr, hce, hck, hbuf, hs, hp]

lemma submitStep_error_cases (r : SubmitResp) (o : OcrOutcome)
    (h : submitStep r = .error o) :
    o = .submitRejected r.status r.bodyText ∨ o = .missingOpLocation := by
  unfold submitStep at h
  split at h
  · exact Or.inl (by injection h with h; exact h.symm)
  · split at h
    · exact Or.inr (by injection h with h; exact h.symm)
    · exact absurd h (by simp)

lemma pollLoop_full_invariant (polls : Nat → PollResp) :
    (pollLoop polls 0 maxAttempts).2 ≤ 120 ∧
    (∀ j, j + 1 < (pollLoop polls 0 maxAttempts).2 → nonTerminalOk (polls j)) ∧
    ((pollLoop polls 0 maxAttempts).1 = .timedOut →
      (pollLoop polls 0 maxAttempts).2 = 120) := by
  refine ⟨pollLoop_count_le polls maxAttempts 0, ?_, ?_⟩
  · intro j hj
    have := pollLoop_prefix_nonTerminal polls maxAttempts 0 j hj
    rwa [Nat.zero_add] at this
  · intro h
    exact pollLoop_timedOut_count polls maxAttempts 0 h

lemma extractText_spec (d : PollData) :
    (∀ c, d.analyzeResult.bind AnalyzeResult.content = some c → c ≠ "" →
      extractText d = c) ∧
    ((d.analyzeResult.bind AnalyzeResult.content = none ∨
      d.analyzeResult.bind AnalyzeResult.content = some "") → extractText d = "") := by
  cases har : d.analyzeResult with
  | none => simp [extractText, har]
  | some ar =>
    cases hc : ar.content with
    | none => simp [extractText, har, hc]
    | some c =>
      by_cases hcc : c = ""
      · subst hcc
        simp [extractText, har, hc]
      · constructor
        · intro c2 hc2 _
          simp [hc] at hc2
          subst hc2
          simp [extractText, har, hc, hcc]
        · intro h
          simp [hc] at h
          exact absurd h hcc

/-- C1: if the first terminal status in the poll-response sequence is
`succeeded` (at index `k`, after only non-terminal responses), the handler
stops there — exactly `k + 1` status queries are issued — and returns the
success outcome carrying the text extracted from that terminal response's
`analyzeResult.content`. -/
theorem c1_poll_stops_at_first_succeeded
    (cfg : Config) (f : UploadedFile) (buf : List Nat) (r : SubmitResp)
    (polls : Nat → PollResp) (k : Nat) (d : PollData)
    (hce : jsTruthy cfg.azureEndpoint = true) (hck : jsTruthy cfg.azureKey = true)
    (hbuf : f.buffer = some buf) (hst : r.status = 202)
    (hloc : jsTruthy r.operationLocation = true)
    (hpre : ∀ j, j < k → nonTerminalOk (polls j)) (hk : k < 120)
    (hd : polls k = .ok d) (hs : d.status = some "succeeded") :
    (handleOcr cfg (some f) (.ok r) polls).outcome = .success (extractText d) ∧
    (handleOcr cfg (some f) (.ok r) polls).pollQueries = k + 1 := by
  have hp : pollLoop polls 0 maxAttempts = (.succeeded d, k + 1) :=
    pollLoop_first_succeeded polls k 0 maxAttempts (by simpa [maxAttempts] using hk)
      (by intro j hj; rw [Nat.zero_add]; exact hpre j hj) d (by simpa using hd) hs
  rw [handleOcr_pollPath cfg f buf r polls hce hck hbuf hst hloc, hp]
  exact ⟨rfl, rfl⟩

/-- Witness for C1: two `running` responses followed by `succeeded` with
content `Page 1: hello` give the success outcome after exactly 3 queries. -/
theorem c1_witness :
    (handleOcr cfgW (some fileW) (.ok submitW) pollsRunThenSucceed).outcome =
      .success "Page 1: hello" ∧
    (handleOcr cfgW (some fileW) (.ok submitW) pollsRunThenSucceed).pollQueries = 3 := by
  have h := c1_poll_stops_at_first_succeeded cfgW fileW [37, 80, 68, 70] submitW
    pollsRunThenSucceed 2 ⟨some "succeeded", some ⟨some "Page 1: hello"⟩⟩
    (by decide) (by decide) rfl rfl (by decide)
    (by decide) (by decide) (by decide) rfl
  have he : extractText ⟨some "succeeded", some ⟨some "Page 1: hello"⟩⟩ =
      "Page 1: hello" := by decide
  rw [he] at h
  exact h

/-- C2: if all 120 responses within the attempt budget are non-terminal, the
handler issues exactly 120 status queries (never one more) and returns the
client-side timeout outcome. -/
theorem c2_timeout_after_exact_budget
    (cfg : Config) (f : UploadedFile) (buf : List Nat) (r : SubmitResp)
    (polls : Nat → PollResp)
    (hce : jsTruthy cfg.azureEndpoint = true) (hck : jsTruthy cfg.azureKey = true)
    (hbuf : f.buffer = some buf) (hst : r.status = 202)
    (hloc : jsTruthy r.operationLocation = true)
    (hpre : ∀ j, j < 120 → nonTerminalOk (polls j)) :
    (handleOcr cfg (some f) (.ok r) polls).outcome = .timeout ∧
    (handleOcr cfg (some f) (.ok r) polls).pollQueries = 120 := by
  have hp : pollLoop polls 0 maxAttempts = (.timedOut, maxAttempts) :=
    pollLoop_timeout polls maxAttempts 0
      (by intro j hj; rw [Nat.zero_add]; exact hpre j (by simpa [maxAttempts] using hj))
  rw [handleOcr_pollPath cfg f buf r polls hce hck hbuf hst hloc, hp]
  exact ⟨rfl, rfl⟩

/-- Witness for C2: a stream of nothing but `running` responses yields the
timeout outcome after exactly 120 queries. -/
theorem c2_witness :
    (handleOcr cfgW (some fileW) (.ok submitW) pollsAlwaysRunning).outcome = .timeout ∧
    (handleOcr cfgW (some fileW) (.ok submitW) pollsAlwaysRunning).pollQueries = 120 :=
  c2_timeout_after_exact_budget cfgW fileW [37, 80, 68, 70] submitW pollsAlwaysRunning
    (by decide) (by decide) rfl rfl (by decide)
    (fun _ _ => by
      show nonTerminalOk (.ok ⟨some "running", none⟩)
      decide)

/-- C3: for every provider response to the submission, the handler yields an
operation reference if and only if the status is 202 and the
`operation-location` header is present (truthy); a non-202 status yields the
rejection error carrying that status and the body, and a 202 without the
header yields the malformed-response error. -/
theorem c3_submit_trichotomy (r : SubmitResp) :
    ((∃ s, submitStep r = .ok s) ↔
      r.status = 202 ∧ jsTruthy r.operationLocation = true) ∧
    (∀ s, submitStep r = .ok s → r.operationLocation = some s) ∧
    (r.status ≠ 202 →
      submitStep r = .error (.submitRejected r.status r.bodyText)) ∧
    (r.status = 202 → jsTruthy r.operationLocation = false →
      submitStep r = .error OcrOutcome.missingOpLocation) := by
  by_cases hst : r.status = 202
  · by_cases hloc : jsTruthy r.operationLocation = true
    · obtain ⟨v, hv⟩ : ∃ v, r.operationLocation = some v := by
        cases ho : r.operationLocation with
        | none => rw [ho] at hloc; exact absurd hloc (by simp [jsTruthy])
        | some v => exact ⟨v, rfl⟩
      have hlocv : jsTruthy (some v) = true := hv ▸ hloc
      have hs : submitStep r = .ok v := by
        simp [submitStep, hst, hv, hlocv]
      refine ⟨⟨fun _ => ⟨hst, hloc⟩, fun _ => ⟨v, hs⟩⟩, ?_, ?_, ?_⟩
      · intro s h
        rw [hs] at h
        rw [hv, Except.ok.inj h]
      · intro h; exact absurd hst h
      · intro _ h; rw [hloc] at h; exact absurd h (by simp)
    · have hlocf : jsTruthy r.operationLocation = false := by
        revert hloc; cases jsTruthy r.operationLocation <;> simp
      have hs : submitStep r = .error OcrOutcome.missingOpLocation := by
        simp [submitStep, hst, hlocf]
      refine ⟨⟨?_, ?_⟩, ?_, ?_, ?_⟩
      · rintro ⟨s, h⟩; rw [hs] at h; exact absurd h (by simp)
      · rintro ⟨_, ht⟩; rw [hlocf] at ht; exact absurd ht (by simp)
      · intro s h; rw [hs] at h; exact absurd h (by simp)
      · intro h; exact absurd hst h
      · intro _ _; exact hs
  · have hs : submitStep r = .error (.submitRejected r.status r.bodyText) := by
      simp [submitStep, hst]
    refine ⟨⟨?_, ?_⟩, ?_, ?_, ?_⟩
    · rintro ⟨s, h⟩; rw [hs] at h; exact absurd h (by simp)
    · rintro ⟨ht, _⟩; exact absurd ht hst
    · intro s h; rw [hs] at h; exact absurd h (by simp)
    · intro _; exact hs
    · intro h; exact absurd h hst

/-- Witness for C3: a 403 submission response with body `denied` yields the
rejection error carrying status 403 and that body. -/
theorem c3_witness :
    submitStep ⟨403, none, "denied"⟩ = .error (.submitRejected 403 "denied") :=
  (c3_submit_trichotomy ⟨403, none, "denied"⟩).2.2.1 (by decide)

/-- C4: if the first terminal status is `failed` (at index `k`), polling
halts there — exactly `k + 1` queries — with the provider failure detail
passed through unchanged, and this 500 outcome is distinguishable from the
504 timeout outcome. -/
theorem c4_first_failed_halts
    (cfg : Config) (f : UploadedFile) (buf : List Nat) (r : SubmitResp)
    (polls : Nat → PollResp) (k : Nat) (d : PollData)
    (hce : jsTruthy cfg.azureEndpoint = true) (hck : jsTruthy cfg.azureKey = true)
    (hbuf : f.buffer = some buf) (hst : r.status = 202)
    (hloc : jsTruthy r.operationLocation = true)
    (hpre : ∀ j, j < k → nonTerminalOk (polls j)) (hk : k < 120)
    (hd : polls k = .ok d) (hs : d.status = some "failed") :
    (handleOcr cfg (some f) (.ok r) polls).outcome = .providerFailed d ∧
    (handleOcr cfg (some f) (.ok r) polls).pollQueries = k + 1 ∧
    httpStatus (.providerFailed d) = 500 ∧
    httpStatus OcrOutcome.timeout = 504 ∧
    (handleOcr cfg (some f) (.ok r) polls).outcome ≠ OcrOutcome.timeout := by
  have hp : pollLoop polls 0 maxAttempts = (.failed d, k + 1) :=
    pollLoop_first_failed polls k 0 maxAttempts (by simpa [maxAttempts] using hk)
      (by intro j hj; rw [Nat.zero_add]; exact hpre j hj) d (by simpa using hd) hs
  rw [handleOcr_pollPath cfg f buf r polls hce hck hbuf hst hloc, hp]
  exact ⟨rfl, rfl, rfl, rfl, by simp [pollOutcomeToOcr]⟩

/-- Witness for C4: one `running` response then `failed` gives the provider
failure outcome after exactly 2 queries. -/
theorem c4_witness :
    (handleOcr cfgW (some fileW) (.ok submitW) pollsRunThenFail).outcome =
      .providerFailed ⟨some "failed", some ⟨none⟩⟩ ∧
    (handleOcr cfgW (some fileW) (.ok submitW) pollsRunThenFail).pollQueries = 2 := by
  have h := c4_first_failed_halts cfgW fileW [37, 80, 68, 70] submitW
    pollsRunThenFail 1 ⟨some "failed", some ⟨none⟩⟩
    (by decide) (by decide) rfl rfl (by decide) (by decide) (by decide) (by decide) rfl
  exact ⟨h.1, h.2.1⟩

/-- C5: a transport failure thrown during status query `k` (after only
non-terminal responses) aborts the whole operation — exactly `k + 1` queries
are issued — and the resulting exception outcome carries the same HTTP
status code (500) as a provider-reported failure, so the two are not
distinguished by status code. -/
theorem c5_poll_transport_error_aborts
    (cfg : Config) (f : UploadedFile) (buf : List Nat) (r : SubmitResp)
    (polls : Nat → PollResp) (k : Nat) (e : String)
    (hce : jsTruthy cfg.azureEndpoint = true) (hck : jsTruthy cfg.azureKey = true)
    (hbuf : f.buffer = some buf) (hst : r.status = 202)
    (hloc : jsTruthy r.operationLocation = true)
    (hpre : ∀ j, j < k → nonTerminalOk (polls j)) (hk : k < 120)
    (he : polls k = .err e) :
    (handleOcr cfg (some f) (.ok r) polls).outcome = .exception e ∧
    (handleOcr cfg (some f) (.ok r) polls).pollQueries = k + 1 ∧
    httpStatus (.exception e) = 500 ∧
    (∀ d, httpStatus (.providerFailed d) = httpStatus (OcrOutcome.exception e)) := by
  have hp : pollLoop polls 0 maxAttempts = (.exception e, k + 1) :=
    pollLoop_first_err polls k 0 maxAttempts (by simpa [maxAttempts] using hk)
      (by intro j hj; rw [Nat.zero_add]; exact hpre j hj) e (by simpa using he)
  rw [handleOcr_pollPath cfg f buf r polls hce hck hbuf hst hloc, hp]
  exact ⟨rfl, rfl, rfl, fun _ => rfl⟩

/-- Witness for C5: an unrecognized status then a thrown `fetch failed` give
the exception outcome after exactly 2 queries. -/
theorem c5_witness :
    (handleOcr cfgW (some fileW) (.ok submitW) pollsRunThenErr).outcome =
      .exception "fetch failed" ∧
    (handleOcr cfgW (some fileW) (.ok submitW) pollsRunThenErr).pollQueries = 2 := by
  have h := c5_poll_transport_error_aborts cfgW fileW [37, 80, 68, 70] submitW
    pollsRunThenErr 1 "fetch failed"
    (by decide) (by decide) rfl rfl (by decide) (by decide) (by decide) (by decide)
  exact ⟨h.1, h.2.1⟩

/-- C6: a poll response whose status is neither `succeeded` nor `failed`
(unrecognized strings and missing status included) is treated as still
running: after `k + 1` such responses the handler proceeds to the next
scheduled query when budget remains (at least `k + 2` queries are issued),
and returns the timeout outcome when the response consumed the last
attempt. -/
theorem c6_unrecognized_status_continues
    (cfg : Config) (f : UploadedFile) (buf : List Nat) (r : SubmitResp)
    (polls : Nat → PollResp) (k : Nat)
    (hce : jsTruthy cfg.azureEndpoint = true) (hck : jsTruthy cfg.azureKey = true)
    (hbuf : f.buffer = some buf) (hst : r.status = 202)
    (hloc : jsTruthy r.operationLocation = true)
    (hpre : ∀ j, j ≤ k → nonTerminalOk (polls j)) :
    (k + 1 < 120 → k + 2 ≤ (handleOcr cfg (some f) (.ok r) polls).pollQueries) ∧
    (k + 1 = 120 → (handleOcr cfg (some f) (.ok r) polls).outcome = .timeout ∧
      (handleOcr cfg (some f) (.ok r) polls).pollQueries = 120) := by
  rw [handleOcr_pollPath cfg f buf r polls hce hck hbuf hst hloc]
  constructor
  · intro h
    have := pollLoop_count_ge polls (k + 1) 0 maxAttempts
      (by simpa [maxAttempts] using h)
      (by intro j hj; rw [Nat.zero_add]; exact hpre j (by omega))
    exact this
  · intro h
    have hp : pollLoop polls 0 maxAttempts = (.timedOut, maxAttempts) :=
      pollLoop_timeout polls maxAttempts 0
        (by intro j hj; rw [Nat.zero_add]
            exact hpre j (by simp only [maxAttempts] at hj; omega))
    rw [hp]
    exact ⟨rfl, rfl⟩

/-- Witness for C6: after one unrecognized (`mystery`) response the handler
issues at least a second query. -/
theorem c6_witness :
    2 ≤ (handleOcr cfgW (some fileW) (.ok submitW) pollsRunThenErr).pollQueries := by
  have h := c6_unrecognized_status_continues cfgW fileW [37, 80, 68, 70] submitW
    pollsRunThenErr 0
    (by decide) (by decide) rfl rfl (by decide)
    (by intro j hj
        have : j = 0 := by omega
        subst this
        show nonTerminalOk (.ok ⟨some "mystery", none⟩)
        decide)
  exact h.1 (by omega)

/-- C7 counterexample: with the configuration present, an uploaded file whose
buffer is empty (`some []`) is NOT rejected with the 400 missing-input
error — the submission request is sent to the provider (here it is
rejected with status 403). -/
theorem c7_counterexample :
    (handleOcr cfgW (some ⟨some [], some "application/pdf"⟩)
        (.ok ⟨403, none, "denied"⟩) pollsAlwaysRunning).submitSent = true ∧
    (handleOcr cfgW (some ⟨some [], some "application/pdf"⟩)
        (.ok ⟨403, none, "denied"⟩) pollsAlwaysRunning).outcome =
      .submitRejected 403 "denied" ∧
    httpStatus (handleOcr cfgW (some ⟨some [], some "application/pdf"⟩)
        (.ok ⟨403, none, "denied"⟩) pollsAlwaysRunning).outcome ≠ 400 := by
  decide

/-- C7 amended: for every request whose document payload is missing — no
uploaded file, or a file record with no buffer — the operation returns the
400 missing-input error and no submission request is sent; a present but
empty (zero-byte) buffer is not rejected and is submitted to the provider. -/
theorem c7_missing_payload_rejected
    (cfg : Config) (file : Option UploadedFile)
    (submitR : SubmitResult) (polls : Nat → PollResp)
    (hce : jsTruthy cfg.azureEndpoint = true) (hck : jsTruthy cfg.azureKey = true)
    (h : file = none ∨ ∃ f, file = some f ∧ f.buffer = none) :
    (handleOcr cfg file submitR polls).outcome = .noFile ∧
    (handleOcr cfg file submitR polls).submitSent = false ∧
    (handleOcr cfg file submitR polls).pollQueries = 0 ∧
    httpStatus (handleOcr cfg file submitR polls).outcome = 400 := by
  rcases h with rfl | ⟨f, rfl, hbuf⟩
  · simp [handleOcr, hce, hck, httpStatus]
  · simp [handleOcr, hce, hck, hbuf, httpStatus]

/-- Witness for C7 (amended): a request with no uploaded file returns the
400 missing-input outcome. -/
theorem c7_witness :
    (handleOcr cfgW none (.ok submitW) pollsAlwaysRunning).outcome = .noFile :=
  (c7_missing_payload_rejected cfgW none (.ok submitW) pollsAlwaysRunning
    (by decide) (by decide) (Or.inl rfl)).1

/-- C8 counterexample: a file whose content-type label is the empty string is
NOT passed through unchanged — the submission carries the substituted
default `application/pdf`. -/
theorem c8_counterexample :
    (handleOcr cfgW (some ⟨some [37], some ""⟩) (.ok ⟨403, none, "denied"⟩)
        pollsAlwaysRunning).sentContentType = some "application/pdf" ∧
    (handleOcr cfgW (some ⟨some [37], some ""⟩) (.ok ⟨403, none, "denied"⟩)
        pollsAlwaysRunning).sentContentType ≠
      (⟨some [37], some ""⟩ : UploadedFile).mimetype := by
  decide

/-- C8 amended: the caller-supplied content-type label is passed through to
the provider unchanged whenever it is a non-empty string; a missing or empty
label is replaced by the default `application/pdf`. -/
theorem c8_content_type_passthrough
    (cfg : Config) (f : UploadedFile) (buf : List Nat)
    (submitR : SubmitResult) (polls : Nat → PollResp)
    (hce : jsTruthy cfg.azureEndpoint = true) (hck : jsTruthy cfg.azureKey = true)
    (hbuf : f.buffer = some buf) :
    (∀ m, f.mimetype = some m → m ≠ "" →
      (handleOcr cfg (some f) submitR polls).sentContentType = some m) ∧
    ((f.mimetype = none ∨ f.mimetype = some "") →
      (handleOcr cfg (some f) submitR polls).sentContentType =
        some "application/pdf") := by
  obtain ⟨hsent, _⟩ := handleOcr_submitEffects cfg f buf submitR polls hce hck hbuf
  constructor
  · intro m hm hne
    rw [hsent]
    simp [contentTypeOf, hm, hne]
  · intro h
    rw [hsent]
    rcases h with hm | hm <;> simp [contentTypeOf, hm]

/-- Witness for C8 (amended): the label `application/pdf` supplied by the
caller is the label the submission carries. -/
theorem c8_witness :
    (handleOcr cfgW (some fileW) (.ok submitW) pollsAlwaysRunning).sentContentType =
      some "application/pdf" :=
  (c8_content_type_passthrough cfgW fileW [37, 80, 68, 70] (.ok submitW)
    pollsAlwaysRunning (by decide) (by decide) rfl).1 "application/pdf" rfl (by decide)

/-- C9: every invocation returns exactly one outcome; at most the 120
budgeted status queries are issued, every status query except the last
observed a non-terminal response (so polling never continues past a terminal
observation or a thrown error), and the timeout outcome is only ever
returned after the full budget of 120 queries. -/
theorem c9_single_terminal_outcome
    (cfg : Config) (file : Option UploadedFile)
    (submitR : SubmitResult) (polls : Nat → PollResp) :
    (handleOcr cfg file submitR polls).pollQueries ≤ 120 ∧
    (∀ j, j + 1 < (handleOcr cfg file submitR polls).pollQueries →
      nonTerminalOk (polls j)) ∧
    ((handleOcr cfg file submitR polls).outcome = OcrOutcome.timeout →
      (handleOcr cfg file submitR polls).pollQueries = 120) := by
  obtain ⟨h1, h2, h3⟩ := pollLoop_full_invariant polls
  unfold handleOcr
  split
  · exact ⟨Nat.zero_le _, fun j hj => absurd hj (Nat.not_lt_zero _), fun h => by simp at h⟩
  · split
    · exact ⟨Nat.zero_le _, fun j hj => absurd hj (Nat.not_lt_zero _), fun h => by simp at h⟩
    · split
      · exact ⟨Nat.zero_le _, fun j hj => absurd hj (Nat.not_lt_zero _), fun h => by simp at h⟩
      · split
        · exact ⟨Nat.zero_le _, fun j hj => absurd hj (Nat.not_lt_zero _), fun h => by simp at h⟩
        · split
          · rename_i o heq
            rcases submitStep_error_cases _ _ heq with rfl | rfl
            · exact ⟨Nat.zero_le _, fun j hj => absurd hj (Nat.not_lt_zero _),
                fun h => by simp at h⟩
            · exact ⟨Nat.zero_le _, fun j hj => absurd hj (Nat.not_lt_zero _),
                fun h => by simp at h⟩
          · split
            · rename_i d n heq
              rw [heq] at h1 h2
              exact ⟨h1, h2, fun h => by simp at h⟩
            · rename_i d n heq
              rw [heq] at h1 h2
              exact ⟨h1, h2, fun h => by simp at h⟩
            · rename_i n heq
              rw [heq] at h1 h2 h3
              exact ⟨h1, h2, fun _ => h3 rfl⟩
            · rename_i e n heq
              rw [heq] at h1 h2
              exact ⟨h1, h2, fun h => by simp at h⟩

/-- Witness for C9: a concrete run (two `running` responses, then
`succeeded`) issues at most the budgeted 120 queries. -/
theorem c9_witness :
    (handleOcr cfgW (some fileW) (.ok submitW) pollsRunThenSucceed).pollQueries ≤ 120 :=
  (c9_single_terminal_outcome cfgW (some fileW) (.ok submitW) pollsRunThenSucceed).1

/-- C10: a first terminal `succeeded` response always yields a success
outcome, even without `analyzeResult`/`content` fields: the returned text is
the response's `analyzeResult.content` when that is a non-empty string and
the empty string otherwise — missing result fields never produce an error
outcome. -/
theorem c10_succeeded_result_extraction
    (cfg : Config) (f : UploadedFile) (buf : List Nat) (r : SubmitResp)
    (polls : Nat → PollResp) (k : Nat) (d : PollData)
    (hce : jsTruthy cfg.azureEndpoint = true) (hck : jsTruthy cfg.azureKey = true)
    (hbuf : f.buffer = some buf) (hst : r.status = 202)
    (hloc : jsTruthy r.operationLocation = true)
    (hpre : ∀ j, j < k → nonTerminalOk (polls j)) (hk : k < 120)
    (hd : polls k = .ok d) (hs : d.status = some "succeeded") :
    (∀ c, d.analyzeResult.bind AnalyzeResult.content = some c → c ≠ "" →
      (handleOcr cfg (some f) (.ok r) polls).outcome = .success c) ∧
    ((d.analyzeResult.bind AnalyzeResult.content = none ∨
      d.analyzeResult.bind AnalyzeResult.content = some "") →
      (handleOcr cfg (some f) (.ok r) polls).outcome = .success "") := by
  have hp : pollLoop polls 0 maxAttempts = (.succeeded d, k + 1) :=
    pollLoop_first_succeeded polls k 0 maxAttempts (by simpa [maxAttempts] using hk)
      (by intro j hj; rw [Nat.zero_add]; exact hpre j hj) d (by simpa using hd) hs
  have hmain : (handleOcr cfg (some f) (.ok r) polls).outcome =
      .success (extractText d) := by
    rw [handleOcr_pollPath cfg f buf r polls hce hck hbuf hst hloc, hp]
    rfl
  obtain ⟨hext1, hext2⟩ := extractText_spec d
  constructor
  · intro c hc hne
    rw [hmain, hext1 c hc hne]
  · intro h
    rw [hmain, hext2 h]

/-- Witness for C10: a `succeeded` response with no `analyzeResult` field
yields the success outcome with the empty string. -/
theorem c10_witness :
    (handleOcr cfgW (some fileW) (.ok submitW) pollsSucceedNoResult).outcome =
      .success "" := by
  have h := c10_succeeded_result_extraction cfgW fileW [37, 80, 68, 70] submitW
    pollsSucceedNoResult 0 ⟨some "succeeded", none⟩
    (by decide) (by decide) rfl rfl (by decide)
    (fun j hj => absurd hj (by omega)) (by omega) rfl rfl
  exact h.2 (Or.inl rfl)

end FertilityBackend
